import Mathlib

/-!
# OpenGL-Practice: shader source splitter, error poller, shader builder

A shallow embedding of `OpenGL/src/Application.cpp` and `OpenGL/src/Renderer.cpp`.

* Text is `String`; `std::string::find` is `find`, with `npos` modelled by `none`.
* The input file of `ParseShader` is the list of lines that successive
  `getline` calls deliver (each without its line terminator).
* `ss[(int)type]` on the two-element array `ss` is a checked access: an index
  other than 0 or 1 stops the run with `Except.error index`.
-/

namespace OpenGL

/-! ## Strings -/

/-- Search for `pat` in the characters `s`, the first of which sits at position `pos`;
the position of the first occurrence, or `none` (for `std::string::npos`). -/
def findFrom (pat : List Char) : List Char → Nat → Option Nat
  | [], pos => if pat.isPrefixOf [] then some pos else none
  | c :: cs, pos => if pat.isPrefixOf (c :: cs) then some pos else findFrom pat cs (pos + 1)

/-- The call `s.find(pat)` of `std::string`: position of the first occurrence of `pat` in `s`,
`none` standing for `npos`. -/
def find (s pat : String) : Option Nat := findFrom pat.data s.data 0

/-! ## Shader source splitter (`ParseShader`, Application.cpp 56-93) -/

/-- The struct `ShaderProgramSource`. -/
structure ShaderProgramSource where
  VertexSource : String
  FragmentSource : String
  deriving DecidableEq, Repr

/-- The local `enum class ShaderType { NONE = -1, VERTEX = 0, FRAGMENT = 1 }`. -/
inductive ShaderType where
  | NONE
  | VERTEX
  | FRAGMENT
  deriving DecidableEq, Repr

/-- The cast `(int)type`. -/
def ShaderType.toInt : ShaderType → Int
  | .NONE => -1
  | .VERTEX => 0
  | .FRAGMENT => 1

/-- The locals of `ParseShader` that live across loop iterations: `type` and the two
string streams `ss[0]`, `ss[1]`. -/
structure ParseState where
  type : ShaderType
  ss0 : String
  ss1 : String
  deriving DecidableEq, Repr

/-- The statement `ss[idx] << line << "\n"`; `ss` has exactly the elements 0 and 1. -/
def ssAppend (st : ParseState) (idx : Int) (line : String) : Except Int ParseState :=
  if idx = 0 then .ok { st with ss0 := st.ss0 ++ line ++ "\n" }
  else if idx = 1 then .ok { st with ss1 := st.ss1 ++ line ++ "\n" }
  else .error idx

/-- One iteration of the `while (getline(stream, line))` body (lines 76-90). -/
def ParseShader.step (st : ParseState) (line : String) : Except Int ParseState :=
  if (find line "#shader").isSome then
    if (find line "vertex").isSome then
      .ok { st with type := ShaderType.VERTEX }
    else if (find line "fragment").isSome then
      .ok { st with type := ShaderType.FRAGMENT }
    else
      .ok st
  else
    ssAppend st st.type.toInt line

/-- The `while (getline(stream, line))` loop over the remaining lines of the file. -/
def ParseShader.loop : ParseState → List String → Except Int ParseState
  | st, [] => .ok st
  | st, line :: rest =>
    match ParseShader.step st line with
    | .ok st1 => ParseShader.loop st1 rest
    | .error idx => .error idx

/-- The function `ParseShader`, on the lines of the file at `filepath`: both streams start empty,
`type` starts as `NONE`, and the result is `{ss[0].str(), ss[1].str()}`. -/
def ParseShader (lines : List String) : Except Int ShaderProgramSource :=
  match ParseShader.loop { type := ShaderType.NONE, ss0 := "", ss1 := "" } lines with
  | .ok st => .ok { VertexSource := st.ss0, FragmentSource := st.ss1 }
  | .error idx => .error idx

/-! ### Vocabulary of the specification for the splitter -/

/-- A marker line: a line containing the marker token. -/
def isMarker (line : String) : Bool := (find line "#shader").isSome

/-- A marker line that selects the vertex section. -/
def selectsVertex (line : String) : Bool := isMarker line && (find line "vertex").isSome

/-- A marker line that selects the fragment section (and not the vertex section). -/
def selectsFragment (line : String) : Bool :=
  isMarker line && !(find line "vertex").isSome && (find line "fragment").isSome

/-- The lines of a section, in order, each followed by one newline. -/
def joinLines : List String → String
  | [] => ""
  | l :: ls => l ++ "\n" ++ joinLines ls

/-- No non-marker line occurs before the first marker line that selects a section. -/
def NoLineBeforeSelection (lines : List String) : Prop :=
  ∀ pre l post, lines = pre ++ l :: post → isMarker l = false →
    ∃ m ∈ pre, selectsVertex m = true ∨ selectsFragment m = true

/-! ## Graphics context (external collaborator)

The driver is not part of the repository. It is modelled as an arbitrary deterministic
`Driver`: what a call raises and returns may depend on every call issued before it.
The numeric constants are the values of the OpenGL headers. -/

def GL_NO_ERROR : Nat := 0
def GL_FALSE : Int := 0
def GL_INVALID_ENUM : Nat := 0x0500
def GL_INVALID_VALUE : Nat := 0x0501
def GL_INVALID_OPERATION : Nat := 0x0502
def GL_STACK_OVERFLOW : Nat := 0x0503
def GL_STACK_UNDERFLOW : Nat := 0x0504
def GL_OUT_OF_MEMORY : Nat := 0x0505
def GL_INVALID_FRAMEBUFFER_OPERATION : Nat := 0x0506
def GL_FRAGMENT_SHADER : Nat := 0x8B30
def GL_VERTEX_SHADER : Nat := 0x8B31
def GL_COMPILE_STATUS : Nat := 0x8B81
def GL_INFO_LOG_LENGTH : Nat := 0x8B84

/-- A code held in the error queue: any `GLenum` other than `GL_NO_ERROR`. -/
abbrev ErrorCode : Type := { e : Nat // e ≠ GL_NO_ERROR }

/-- The graphics calls of the program, with their arguments (`glGetProgramiv` is part of
the API vocabulary although no function of the program issues it). -/
inductive GLOp where
  | glCreateShader (type : Nat)
  | glShaderSource (shader : Nat) (source : String)
  | glCompileShader (shader : Nat)
  | glGetShaderiv (shader pname : Nat)
  | glGetShaderInfoLog (shader : Nat) (bufSize : Int)
  | glDeleteShader (shader : Nat)
  | glCreateProgram
  | glAttachShader (program shader : Nat)
  | glLinkProgram (program : Nat)
  | glValidateProgram (program : Nat)
  | glGetProgramiv (program pname : Nat)
  deriving DecidableEq, Repr

/-- The behaviour of the graphics driver, as a function of the calls issued so far. -/
structure Driver where
  /-- The error codes the call puts in the queue. -/
  raises : List GLOp → GLOp → List ErrorCode
  /-- The handle returned by `glCreateShader` and `glCreateProgram`. -/
  handle : List GLOp → GLOp → Nat
  /-- The integer `glGetShaderiv(shader, pname, &out)` writes. -/
  shaderiv : List GLOp → Nat → Nat → Int
  /-- The text `glGetShaderInfoLog` writes. -/
  infoLog : List GLOp → Nat → String

/-- The state the program and the context share: the pending error codes (oldest first),
the graphics calls issued so far (oldest first), and the text written to `cout`. -/
structure GLWorld where
  errors : List ErrorCode
  calls : List GLOp
  out : String

/-- The call `glGetError()` on the queue: `GL_NO_ERROR` when nothing is pending, else the
oldest pending code, which is removed. -/
def glGetError : List ErrorCode → Nat × List ErrorCode
  | [] => (GL_NO_ERROR, [])
  | e :: rest => (e.val, rest)

/-- Issuing the graphics call `x`: it is recorded and the codes it raises are queued. -/
def issue (d : Driver) (x : GLOp) (w : GLWorld) : GLWorld :=
  { w with errors := w.errors ++ d.raises w.calls x, calls := w.calls ++ [x] }

/-! ## Error poller (Application.cpp 8-54, Renderer.cpp 7-46) -/

/-- The function `GLClearError`: `while (glGetError() != GL_NO_ERROR);`, on the queue. The recursion
follows the queue that `glGetError` leaves (see `GLClearError_eq_loop`). -/
def GLClearError : List ErrorCode → List ErrorCode
  | [] => []
  | e :: rest => if e.val ≠ GL_NO_ERROR then GLClearError rest else rest

/-- The `switch (error)` of `GLLogCall`: the text written for the code `error`. -/
def GLLogCall.switch (error : Nat) : String :=
  if error = GL_INVALID_ENUM then
    "GL_INVALID_ENUM : An unacceptable value is specified for an enumerated argument."
  else if error = GL_INVALID_VALUE then
    "GL_INVALID_OPERATION : A numeric argument is out of range."
  else if error = GL_INVALID_OPERATION then
    "GL_INVALID_OPERATION : The specified operation is not allowed in the current state."
  else if error = GL_INVALID_FRAMEBUFFER_OPERATION then
    "GL_INVALID_FRAMEBUFFER_OPERATION : The framebuffer object is not complete."
  else if error = GL_OUT_OF_MEMORY then
    "GL_OUT_OF_MEMORY : There is not enough memory left to execute the command."
  else if error = GL_STACK_UNDERFLOW then
    "GL_STACK_UNDERFLOW : An attempt has been made to perform an operation that would cause an internal stack to underflow."
  else if error = GL_STACK_OVERFLOW then
    "GL_STACK_OVERFLOW : An attempt has been made to perform an operation that would cause an internal stack to overflow."
  else
    "Unrecognized error" ++ toString error

/-- The function `GLLogCall(function, file, line)`: the body of the `while (GLenum error = glGetError())`
loop ends in `return false`, so the loop condition is evaluated once. -/
def GLLogCall (function file : String) (line : Int) (w : GLWorld) : Bool × GLWorld :=
  match glGetError w.errors with
  | (error, rest) =>
    if error ≠ 0 then
      (false, { w with errors := rest,
                       out := w.out ++ "[OpenGL Error] " ++ GLLogCall.switch error ++ "\n" })
    else
      (true, { w with errors := rest })

/-- The check of the macro `GLCall(x)`: `GLClearError(); x;` and then the value of
`GLLogCall(#x, __FILE__, __LINE__)`. -/
def GLCall.check (d : Driver) (function file : String) (line : Int) (x : GLOp) (w : GLWorld) :
    Bool × GLWorld :=
  GLLogCall function file line (issue d x { w with errors := GLClearError w.errors })

/-- The macro `GLCall(x)`: `ASSERT` stops the program (`__debugbreak()`) when the check is
false; the stopped run is `Except.error` with the state reached. -/
def GLCall (d : Driver) (function file : String) (line : Int) (x : GLOp) (w : GLWorld) :
    Except GLWorld GLWorld :=
  match GLCall.check d function file line x w with
  | (true, w1) => .ok w1
  | (false, w1) => .error w1

/-! ## Shader builder (Application.cpp 95-134) -/

/-- The function `CompileShader(type, source)`. -/
def CompileShader (d : Driver) (file : String) (type : Nat) (source : String) (w : GLWorld) :
    Except GLWorld (Nat × GLWorld) := do
  let id := d.handle w.calls (GLOp.glCreateShader type)
  let w ← GLCall d "unsigned int id = glCreateShader(type)" file 97 (GLOp.glCreateShader type) w
  let w ← GLCall d "glShaderSource(id, 1, &src, nullptr)" file 99 (GLOp.glShaderSource id source) w
  let w ← GLCall d "glCompileShader(id)" file 100 (GLOp.glCompileShader id) w
  let result := d.shaderiv w.calls id GL_COMPILE_STATUS
  let w ← GLCall d "glGetShaderiv(id, GL_COMPILE_STATUS, &result)" file 103
    (GLOp.glGetShaderiv id GL_COMPILE_STATUS) w
  if result = GL_FALSE then
    let length := d.shaderiv w.calls id GL_INFO_LOG_LENGTH
    let w ← GLCall d "glGetShaderiv(id, GL_INFO_LOG_LENGTH, &length)" file 107
      (GLOp.glGetShaderiv id GL_INFO_LOG_LENGTH) w
    let message := d.infoLog w.calls id
    let w ← GLCall d "glGetShaderInfoLog(id, length, &length, message)" file 109
      (GLOp.glGetShaderInfoLog id length) w
    let w := { w with out := w.out ++ "Failed to compile "
                ++ (if type = GL_VERTEX_SHADER then "vertex" else "fragment") ++ "shader." ++ "\n" }
    let w := { w with out := w.out ++ message ++ "\n" }
    let w ← GLCall d "glDeleteShader(id)" file 112 (GLOp.glDeleteShader id) w
    return (0, w)
  return (id, w)

/-- The function `CreateShader(vertexShader, fragmentShader)`; `glCreateProgram()` is the one call
not wrapped in `GLCall`. -/
def CreateShader (d : Driver) (file : String) (vertexShader fragmentShader : String)
    (w : GLWorld) : Except GLWorld (Nat × GLWorld) := do
  let program := d.handle w.calls GLOp.glCreateProgram
  let w := issue d GLOp.glCreateProgram w
  let (vs, w) ← CompileShader d file GL_VERTEX_SHADER vertexShader w
  let (fs, w) ← CompileShader d file GL_FRAGMENT_SHADER fragmentShader w
  let w ← GLCall d "glAttachShader(program, vs)" file 125 (GLOp.glAttachShader program vs) w
  let w ← GLCall d "glAttachShader(program, fs)" file 126 (GLOp.glAttachShader program fs) w
  let w ← GLCall d "glLinkProgram(program)" file 127 (GLOp.glLinkProgram program) w
  let w ← GLCall d "glValidateProgram(program)" file 128 (GLOp.glValidateProgram program) w
  let w ← GLCall d "glDeleteShader(vs)" file 130 (GLOp.glDeleteShader vs) w
  let w ← GLCall d "glDeleteShader(fs)" file 131 (GLOp.glDeleteShader fs) w
  return (program, w)

/-- The handle `glCreateShader(type)` returns to `CompileShader` started in state `w`. -/
def createdShader (d : Driver) (type : Nat) (w : GLWorld) : Nat :=
  d.handle w.calls (GLOp.glCreateShader type)

/-- The compile-status flag `glGetShaderiv(id, GL_COMPILE_STATUS, &result)` writes into
`result` in `CompileShader` started in state `w`. -/
def compileStatus (d : Driver) (type : Nat) (source : String) (w : GLWorld) : Int :=
  d.shaderiv
    (w.calls ++ [GLOp.glCreateShader type]
      ++ [GLOp.glShaderSource (createdShader d type w) source]
      ++ [GLOp.glCompileShader (createdShader d type w)])
    (createdShader d type w) GL_COMPILE_STATUS

/-- A driver that raises no error, returns the handle 1 from every create call and
reports every compilation as failed. -/
def rejectingDriver : Driver :=
  { raises := fun _ _ => [],
    handle := fun _ _ => 1,
    shaderiv := fun _ _ _ => 0,
    infoLog := fun _ _ => "0:1: syntax error" }

/-! ## Geometry upload in `main` (Application.cpp 162-197) -/

/-- The value of `sizeof(float)`. -/
def sizeof_float : Nat := 4

/-- The value of `sizeof(unsigned int)`. -/
def sizeof_unsigned_int : Nat := 4

/-- The array `float positions[]`. -/
def positions : List ℚ := [-0.5, -0.5, 0.5, -0.5, 0.5, 0.5, -0.5, 0.5]

/-- The array `unsigned int indices[]`. -/
def indices : List Nat := [0, 1, 2, 2, 3, 0]

/-- The size argument of `glBufferData(GL_ARRAY_BUFFER, 6 * 2 * sizeof(float), positions, ..)`. -/
def vertexUploadSize : Nat := 6 * 2 * sizeof_float

/-- The size argument of
`glBufferData(GL_ELEMENT_ARRAY_BUFFER, 6 * sizeof(unsigned int), indices, ..)`. -/
def indexUploadSize : Nat := 6 * sizeof_unsigned_int

/-- The count argument of `glDrawElements(GL_TRIANGLES, 6, GL_UNSIGNED_INT, nullptr)`. -/
def drawCount : Nat := 6

/-- The number of floats per vertex, the size argument of `glVertexAttribPointer(0, 2, ..)`. -/
def floatsPerVertex : Nat := 2

/-- The value of `sizeof(positions)`. -/
def sizeof_positions : Nat := positions.length * sizeof_float

/-- The value of `sizeof(indices)`. -/
def sizeof_indices : Nat := indices.length * sizeof_unsigned_int

/-! ### Lemmas on `find` -/

theorem findFrom_eq_none_iff (pat s : List Char) (pos : Nat) :
    findFrom pat s pos = none ↔ ¬ pat <:+: s := by
  induction s generalizing pos with
  | nil =>
    simp only [findFrom, List.infix_nil]
    cases pat <;> simp [List.isPrefixOf]
  | cons c cs ih =>
    simp only [findFrom, List.infix_cons_iff]
    by_cases h : pat.isPrefixOf (c :: cs) = true
    · have h2 : pat <+: c :: cs := List.isPrefixOf_iff_prefix.mp h
      simp [h, h2]
    · have h2 : ¬ pat <+: c :: cs := fun hp => h (List.isPrefixOf_iff_prefix.mpr hp)
      simp [h, h2, ih]

theorem find_isSome_iff (s pat : String) :
    (find s pat).isSome = true ↔ pat.data <:+: s.data := by
  unfold find
  rw [← not_iff_not, ← findFrom_eq_none_iff pat.data s.data 0]
  cases findFrom pat.data s.data 0 <;> simp

theorem find_isSome_eq_false_iff (s pat : String) :
    (find s pat).isSome = false ↔ ¬ pat.data <:+: s.data := by
  rw [← find_isSome_iff]
  cases (find s pat).isSome <;> simp

theorem occurs_append_cons_of_not_mem {pat a b : List Char} {c : Char}
    (hc : c ∉ pat) (h : pat <:+: a ++ c :: b) : pat <:+: a ∨ pat <:+: b := by
  obtain ⟨s, t, hst⟩ := h
  rcases List.append_eq_append_iff.mp hst with ⟨a', ha, _⟩ | ⟨c', hsp, hcb⟩
  · exact Or.inl ⟨s, a', ha.symm⟩
  · cases c' with
    | nil =>
      rw [List.append_nil] at hsp
      exact Or.inl ⟨s, [], by rw [List.append_nil, hsp]⟩
    | cons x c'' =>
      have hx : x = c := by
        have := hcb
        simp only [List.cons_append, List.cons.injEq] at this
        exact this.1.symm
      subst hx
      have hb : b = c'' ++ t := by
        have := hcb
        simp only [List.cons_append, List.cons.injEq] at this
        exact this.2
      rcases List.append_eq_append_iff.mp hsp with ⟨a', _, hpat⟩ | ⟨d, ha, hd⟩
      · exact absurd (by rw [hpat]; simp) hc
      · cases d with
        | nil =>
          rw [List.nil_append] at hd
          exact absurd (by rw [← hd]; simp) hc
        | cons y d' =>
          simp only [List.cons_append, List.cons.injEq] at hd
          refine Or.inr ⟨d', t, ?_⟩
          rw [hb, hd.2]

theorem joinLines_data_cons (l : String) (ls : List String) :
    (joinLines (l :: ls)).data = l.data ++ '\n' :: (joinLines ls).data := by
  simp [joinLines, String.data_append]

theorem marker_absent_joinLines (body : List String)
    (hbody : ∀ l ∈ body, isMarker l = false) :
    ¬ "#shader".data <:+: (joinLines body).data := by
  induction body with
  | nil => simp [joinLines]
  | cons l ls ih =>
    rw [joinLines_data_cons]
    intro h
    have hc : '\n' ∉ "#shader".data := by decide
    rcases occurs_append_cons_of_not_mem hc h with h1 | h1
    · have := hbody l (List.mem_cons_self _ _)
      unfold isMarker at this
      exact (find_isSome_eq_false_iff _ _).mp this h1
    · exact ih (fun x hx => hbody x (List.mem_cons_of_mem _ hx)) h1

theorem joinLines_eq_empty_iff (body : List String) : joinLines body = "" ↔ body = [] := by
  cases body with
  | nil => simp [joinLines]
  | cons l ls =>
    simp only [reduceCtorEq, iff_false]
    intro h
    have := congrArg String.data h
    rw [joinLines_data_cons] at this
    simp at this

theorem joinLines_append (a b : List String) :
    joinLines (a ++ b) = joinLines a ++ joinLines b := by
  induction a with
  | nil => simp [joinLines]
  | cons l ls ih => simp [joinLines, ih, String.append_assoc]

/-! ### Lemmas on the loop of `ParseShader` -/

theorem step_nonMarker (st : ParseState) (line : String) (h : isMarker line = false) :
    ParseShader.step st line = ssAppend st st.type.toInt line := by
  unfold isMarker at h
  simp [ParseShader.step, h]

theorem loop_vertex_body (body : List String) (hbody : ∀ l ∈ body, isMarker l = false)
    (s0 s1 : String) :
    ParseShader.loop { type := ShaderType.VERTEX, ss0 := s0, ss1 := s1 } body
      = .ok { type := ShaderType.VERTEX, ss0 := s0 ++ joinLines body, ss1 := s1 } := by
  induction body generalizing s0 with
  | nil => simp [ParseShader.loop, joinLines]
  | cons l ls ih =>
    have hl := hbody l (List.mem_cons_self _ _)
    simp only [ParseShader.loop, step_nonMarker _ _ hl, ssAppend, ShaderType.toInt, if_true]
    rw [ih (fun x hx => hbody x (List.mem_cons_of_mem _ hx))]
    simp [joinLines, String.append_assoc]

theorem loop_fragment_body (body : List String) (hbody : ∀ l ∈ body, isMarker l = false)
    (s0 s1 : String) :
    ParseShader.loop { type := ShaderType.FRAGMENT, ss0 := s0, ss1 := s1 } body
      = .ok { type := ShaderType.FRAGMENT, ss0 := s0, ss1 := s1 ++ joinLines body } := by
  induction body generalizing s1 with
  | nil => simp [ParseShader.loop, joinLines]
  | cons l ls ih =>
    have hl := hbody l (List.mem_cons_self _ _)
    simp only [ParseShader.loop, step_nonMarker _ _ hl, ssAppend, ShaderType.toInt]
    simp only [one_ne_zero, if_false, if_true]
    rw [ih (fun x hx => hbody x (List.mem_cons_of_mem _ hx))]
    simp [joinLines, String.append_assoc]

theorem loop_cons (st : ParseState) (l : String) (rest : List String) :
    ParseShader.loop st (l :: rest)
      = match ParseShader.step st l with
        | .ok st1 => ParseShader.loop st1 rest
        | .error idx => .error idx := rfl

theorem loop_append (a b : List String) (st : ParseState) :
    ParseShader.loop st (a ++ b)
      = match ParseShader.loop st a with
        | .ok st1 => ParseShader.loop st1 b
        | .error idx => .error idx := by
  induction a generalizing st with
  | nil => simp [ParseShader.loop]
  | cons l ls ih =>
    simp only [List.cons_append, ParseShader.loop]
    cases ParseShader.step st l with
    | ok st1 => simp [ih]
    | error idx => simp

theorem step_selectsVertex (st : ParseState) (m : String) (h : selectsVertex m = true) :
    ParseShader.step st m = .ok { st with type := ShaderType.VERTEX } := by
  simp only [selectsVertex, isMarker, Bool.and_eq_true] at h
  simp [ParseShader.step, h.1, h.2]

theorem step_selectsFragment (st : ParseState) (m : String) (h : selectsFragment m = true) :
    ParseShader.step st m = .ok { st with type := ShaderType.FRAGMENT } := by
  simp only [selectsFragment, isMarker, Bool.and_eq_true, Bool.not_eq_true'] at h
  simp [ParseShader.step, h.1.1, h.1.2, h.2]

theorem loop_selected (lines : List String) (st : ParseState) (h : st.type ≠ ShaderType.NONE) :
    ∃ st1, ParseShader.loop st lines = .ok st1 := by
  induction lines generalizing st with
  | nil => exact ⟨st, rfl⟩
  | cons l ls ih =>
    simp only [ParseShader.loop, ParseShader.step]
    by_cases hm : (find l "#shader").isSome = true
    · by_cases hv : (find l "vertex").isSome = true
      · simp only [hm, hv, if_true]
        exact ih _ (by simp)
      · by_cases hf : (find l "fragment").isSome = true
        · simp only [hm, hv, hf, if_true, if_false]
          exact ih _ (by simp)
        · simp only [hm, hv, hf, if_true, if_false]
          exact ih _ h
    · simp only [hm, if_false]
      obtain ⟨t, s0, s1⟩ := st
      cases t with
      | NONE => exact absurd rfl h
      | VERTEX =>
        simp only [ssAppend, ShaderType.toInt, if_true]
        exact ih _ (by simp)
      | FRAGMENT =>
        simp only [ssAppend, ShaderType.toInt, one_ne_zero, if_true, if_false]
        exact ih _ (by simp)

theorem noLineBeforeSelection_nil : NoLineBeforeSelection [] := by
  intro pre l post h
  simp at h

theorem not_noLineBeforeSelection_of_nonMarker (l : String) (rest : List String)
    (h : isMarker l = false) : ¬ NoLineBeforeSelection (l :: rest) := by
  intro hn
  obtain ⟨m, hm, _⟩ := hn [] l rest rfl h
  simp at hm

theorem noLineBeforeSelection_of_selects (l : String) (rest : List String)
    (h : selectsVertex l = true ∨ selectsFragment l = true) :
    NoLineBeforeSelection (l :: rest) := by
  have hmark : isMarker l = true := by
    rcases h with h | h
    · simp only [selectsVertex, Bool.and_eq_true] at h
      exact h.1
    · simp only [selectsFragment, Bool.and_eq_true] at h
      exact h.1.1
  intro pre x post hdec hx
  cases pre with
  | nil =>
    simp only [List.nil_append, List.cons.injEq] at hdec
    rw [← hdec.1, hmark] at hx
    exact absurd hx (by simp)
  | cons y pre1 =>
    simp only [List.cons_append, List.cons.injEq] at hdec
    exact ⟨l, by rw [hdec.1]; exact List.mem_cons_self _ _, h⟩

theorem noLineBeforeSelection_cons_marker (l : String) (rest : List String)
    (hmark : isMarker l = true)
    (hsel : ¬ (selectsVertex l = true ∨ selectsFragment l = true)) :
    NoLineBeforeSelection (l :: rest) ↔ NoLineBeforeSelection rest := by
  constructor
  · intro hn pre x post hdec hx
    obtain ⟨m, hm, hms⟩ := hn (l :: pre) x post (by rw [hdec]; rfl) hx
    rcases List.mem_cons.mp hm with hml | hmp
    · exact absurd (hml ▸ hms) hsel
    · exact ⟨m, hmp, hms⟩
  · intro hn pre x post hdec hx
    cases pre with
    | nil =>
      simp only [List.nil_append, List.cons.injEq] at hdec
      rw [← hdec.1, hmark] at hx
      exact absurd hx (by simp)
    | cons y pre1 =>
      simp only [List.cons_append, List.cons.injEq] at hdec
      obtain ⟨m, hm, hms⟩ := hn pre1 x post hdec.2 hx
      exact ⟨m, List.mem_cons_of_mem _ hm, hms⟩

theorem loop_unselected (lines : List String) (s0 s1 : String) :
    (NoLineBeforeSelection lines →
        ∃ st1, ParseShader.loop { type := ShaderType.NONE, ss0 := s0, ss1 := s1 } lines = .ok st1) ∧
    (¬ NoLineBeforeSelection lines →
        ParseShader.loop { type := ShaderType.NONE, ss0 := s0, ss1 := s1 } lines = .error (-1)) := by
  induction lines with
  | nil => exact ⟨fun _ => ⟨_, rfl⟩, fun h => absurd noLineBeforeSelection_nil h⟩
  | cons l ls ih =>
    by_cases hm : (find l "#shader").isSome = true
    · by_cases hv : (find l "vertex").isSome = true
      · have hsel : selectsVertex l = true ∨ selectsFragment l = true :=
          Or.inl (by simp [selectsVertex, isMarker, hm, hv])
        have hno := noLineBeforeSelection_of_selects l ls hsel
        refine ⟨fun _ => ?_, fun h => absurd hno h⟩
        simp only [ParseShader.loop, ParseShader.step, hm, hv, if_true]
        exact loop_selected _ _ (by simp)
      · by_cases hf : (find l "fragment").isSome = true
        · have hsel : selectsVertex l = true ∨ selectsFragment l = true :=
            Or.inr (by simp [selectsFragment, isMarker, hm, hv, hf])
          have hno := noLineBeforeSelection_of_selects l ls hsel
          refine ⟨fun _ => ?_, fun h => absurd hno h⟩
          simp only [ParseShader.loop, ParseShader.step, hm, hv, hf, if_true, if_false]
          exact loop_selected _ _ (by simp)
        · have hsel : ¬ (selectsVertex l = true ∨ selectsFragment l = true) := by
            simp [selectsVertex, selectsFragment, isMarker, hm, hv, hf]
          have hiff := noLineBeforeSelection_cons_marker l ls hm hsel
          simp only [ParseShader.loop, ParseShader.step, hm, hv, hf, if_true, if_false]
          rw [hiff]
          exact ih
    · have hm2 : isMarker l = false := by simpa [isMarker] using hm
      have hno := not_noLineBeforeSelection_of_nonMarker l ls hm2
      refine ⟨fun h => absurd h hno, fun _ => ?_⟩
      simp [ParseShader.loop, ParseShader.step, hm, ssAppend, ShaderType.toInt]

/-! ### Theorems on `ParseShader` -/

/-- C1 (amended): for a file made of one vertex section and one fragment section, in either
order, `ParseShader` returns as `VertexSource` the vertex section's non-marker lines, in
order, each followed by one newline, and as `FragmentSource` the same for the fragment
section; a blob is non-empty exactly when its section has at least one non-marker line,
and the marker token occurs in neither blob. -/
theorem parseShader_two_sections (mv mf : String) (vbody fbody : List String)
    (hmv : selectsVertex mv = true) (hmf : selectsFragment mf = true)
    (hv : ∀ l ∈ vbody, isMarker l = false) (hf : ∀ l ∈ fbody, isMarker l = false) :
    ParseShader (mv :: vbody ++ mf :: fbody)
        = .ok { VertexSource := joinLines vbody, FragmentSource := joinLines fbody } ∧
    ParseShader (mf :: fbody ++ mv :: vbody)
        = .ok { VertexSource := joinLines vbody, FragmentSource := joinLines fbody } ∧
    (joinLines vbody ≠ "" ↔ vbody ≠ []) ∧ (joinLines fbody ≠ "" ↔ fbody ≠ []) ∧
    find (joinLines vbody) "#shader" = none ∧ find (joinLines fbody) "#shader" = none := by
  refine ⟨?_, ?_, ?_, ?_, ?_, ?_⟩
  · rw [ParseShader, loop_append, loop_cons, step_selectsVertex _ _ hmv]
    simp only []
    rw [loop_vertex_body _ hv]
    simp only []
    rw [loop_cons, step_selectsFragment _ _ hmf]
    simp only []
    rw [loop_fragment_body _ hf]
    simp only [String.empty_append]
  · rw [ParseShader, loop_append, loop_cons, step_selectsFragment _ _ hmf]
    simp only []
    rw [loop_fragment_body _ hf]
    simp only []
    rw [loop_cons, step_selectsVertex _ _ hmv]
    simp only []
    rw [loop_vertex_body _ hv]
    simp only [String.empty_append]
  · exact not_congr (joinLines_eq_empty_iff vbody)
  · exact not_congr (joinLines_eq_empty_iff fbody)
  · exact (findFrom_eq_none_iff _ _ 0).mpr (marker_absent_joinLines vbody hv)
  · exact (findFrom_eq_none_iff _ _ 0).mpr (marker_absent_joinLines fbody hf)

/-- Witness of C1: the end-to-end scenario of the specification. -/
theorem parseShader_two_sections_witness :
    ParseShader ["#shader vertex", "// passthrough-vertex",
                 "#shader fragment", "// passthrough-fragment"]
      = .ok { VertexSource := "// passthrough-vertex\n",
              FragmentSource := "// passthrough-fragment\n" } :=
  (parseShader_two_sections "#shader vertex" "#shader fragment"
    ["// passthrough-vertex"] ["// passthrough-fragment"]
    (by decide) (by decide) (by decide) (by decide)).1

/-- Counterexample to C1 as stated: a file of the described shape whose vertex section has
no lines yields an empty `VertexSource`, so the two blobs are not always non-empty. -/
theorem parseShader_nonempty_counterexample :
    ¬ (∀ (mv mf : String) (vbody fbody : List String),
        selectsVertex mv = true → selectsFragment mf = true →
        (∀ l ∈ vbody, isMarker l = false) → (∀ l ∈ fbody, isMarker l = false) →
        ∃ r, ParseShader (mv :: vbody ++ mf :: fbody) = .ok r ∧
          r.VertexSource ≠ "" ∧ r.FragmentSource ≠ "") := by
  intro h
  obtain ⟨r, hr, hne, _⟩ := h "#shader vertex" "#shader fragment" [] ["// f"]
    (by decide) (by decide) (by decide) (by decide)
  have hres : ParseShader ("#shader vertex" :: [] ++ "#shader fragment" :: ["// f"])
      = .ok { VertexSource := "", FragmentSource := "// f\n" } := rfl
  rw [hres] at hr
  cases hr
  exact hne rfl

/-- C2: a line containing the marker token and both "vertex" and "fragment" switches the
active section to the vertex section, whatever came before it: in the result of
`ParseShader`, the non-marker lines that follow it are appended to `VertexSource`, in
order and each followed by one newline, and `FragmentSource` is what the lines before the
marker gave (a run already stopped before the marker stays stopped). -/
theorem marker_with_both_selects_vertex (pre : List String) (m : String) (body : List String)
    (hm : (find m "#shader").isSome = true) (hv : (find m "vertex").isSome = true)
    (_hf : (find m "fragment").isSome = true)
    (hbody : ∀ l ∈ body, isMarker l = false) :
    (∀ st : ParseState, ParseShader.step st m = .ok { st with type := ShaderType.VERTEX }) ∧
    (∀ st : ParseState, ParseShader.loop st (m :: body)
      = .ok { type := ShaderType.VERTEX, ss0 := st.ss0 ++ joinLines body, ss1 := st.ss1 }) ∧
    ParseShader (pre ++ m :: body)
      = match ParseShader pre with
        | .ok r => .ok { VertexSource := r.VertexSource ++ joinLines body,
                         FragmentSource := r.FragmentSource }
        | .error idx => .error idx := by
  have hstep : ∀ st : ParseState,
      ParseShader.step st m = .ok { st with type := ShaderType.VERTEX } := by
    intro st
    simp [ParseShader.step, hm, hv]
  have hloop : ∀ st : ParseState, ParseShader.loop st (m :: body)
      = .ok { type := ShaderType.VERTEX, ss0 := st.ss0 ++ joinLines body, ss1 := st.ss1 } := by
    intro st
    simp only [ParseShader.loop, hstep]
    exact loop_vertex_body body hbody st.ss0 st.ss1
  refine ⟨hstep, hloop, ?_⟩
  unfold ParseShader
  rw [loop_append]
  cases hpre : ParseShader.loop { type := ShaderType.NONE, ss0 := "", ss1 := "" } pre with
  | error idx => rfl
  | ok st1 =>
    simp only []
    rw [hloop]

/-- Witness of C2: after a fragment section, a marker naming both stages sends the next
line to `VertexSource` and leaves `FragmentSource` as it was. -/
theorem marker_with_both_selects_vertex_witness :
    ParseShader ["#shader fragment", "f", "#shader fragment vertex", "x"]
      = .ok { VertexSource := "x\n", FragmentSource := "f\n" } :=
  (marker_with_both_selects_vertex ["#shader fragment", "f"] "#shader fragment vertex" ["x"]
    (by decide) (by decide) (by decide) (by decide)).2.2.trans rfl

/-- C3: the index `(int)type` is 0 or 1 at every append of `ParseShader` (the run completes)
exactly when no non-marker line occurs before the first marker line that selects a section;
otherwise the first such line is appended at index -1, outside the array `ss`. -/
theorem parseShader_index_in_range_iff (lines : List String) :
    ((∃ r, ParseShader lines = .ok r) ↔ NoLineBeforeSelection lines) ∧
    (ParseShader lines = .error (-1) ↔ ¬ NoLineBeforeSelection lines) := by
  have h := loop_unselected lines "" ""
  by_cases hn : NoLineBeforeSelection lines
  · obtain ⟨st1, hst⟩ := h.1 hn
    simp [ParseShader, hst, hn]
  · have hst := h.2 hn
    simp [ParseShader, hst, hn]

/-! ### Lemmas on the error poller -/

theorem GLClearError_eq_loop (q : List ErrorCode) :
    GLClearError q
      = if (glGetError q).1 ≠ GL_NO_ERROR then GLClearError (glGetError q).2
        else (glGetError q).2 := by
  cases q with
  | nil => simp [GLClearError, glGetError]
  | cons e rest => simp [GLClearError, glGetError]

theorem GLClearError_eq_nil (q : List ErrorCode) : GLClearError q = [] := by
  induction q with
  | nil => rfl
  | cons e rest ih => simp [GLClearError, e.property, ih]

theorem GLLogCall_nil (function file : String) (line : Int) (calls : List GLOp) (out : String) :
    GLLogCall function file line { errors := [], calls := calls, out := out }
      = (true, { errors := [], calls := calls, out := out }) := by
  simp [GLLogCall, glGetError, GL_NO_ERROR]

theorem GLLogCall_cons (function file : String) (line : Int) (e : ErrorCode)
    (rest : List ErrorCode) (calls : List GLOp) (out : String) :
    GLLogCall function file line { errors := e :: rest, calls := calls, out := out }
      = (false, { errors := rest, calls := calls,
                  out := out ++ "[OpenGL Error] " ++ GLLogCall.switch e.val ++ "\n" }) := by
  have h : e.val ≠ 0 := e.property
  simp [GLLogCall, glGetError, h]

theorem GLCall_check_eq (d : Driver) (function file : String) (line : Int) (x : GLOp)
    (w : GLWorld) :
    GLCall.check d function file line x w
      = match d.raises w.calls x with
        | [] => (true, { errors := [], calls := w.calls ++ [x], out := w.out })
        | e :: rest =>
          (false, { errors := rest, calls := w.calls ++ [x],
                    out := w.out ++ "[OpenGL Error] " ++ GLLogCall.switch e.val ++ "\n" }) := by
  unfold GLCall.check issue
  simp only [GLClearError_eq_nil, List.nil_append]
  cases d.raises w.calls x with
  | nil => exact GLLogCall_nil _ _ _ _ _
  | cons e rest => exact GLLogCall_cons _ _ _ _ _ _ _

theorem GLCall_ok (d : Driver) (hquiet : ∀ calls x, d.raises calls x = [])
    (function file : String) (line : Int) (x : GLOp) (w : GLWorld) :
    GLCall d function file line x w
      = .ok { errors := [], calls := w.calls ++ [x], out := w.out } := by
  simp [GLCall, GLCall_check_eq, hquiet]

/-! ### Lemmas on the shader builder -/

theorem CompileShader_quiet_unfolded (d : Driver) (hquiet : ∀ calls x, d.raises calls x = [])
    (file : String) (type : Nat) (source : String) (w : GLWorld) :
    CompileShader d file type source w
      = if d.shaderiv
            (w.calls ++ [GLOp.glCreateShader type]
              ++ [GLOp.glShaderSource (d.handle w.calls (GLOp.glCreateShader type)) source]
              ++ [GLOp.glCompileShader (d.handle w.calls (GLOp.glCreateShader type))])
            (d.handle w.calls (GLOp.glCreateShader type)) GL_COMPILE_STATUS = GL_FALSE then
          .ok (0,
            { errors := [],
              calls := w.calls ++ [GLOp.glCreateShader type]
                ++ [GLOp.glShaderSource (d.handle w.calls (GLOp.glCreateShader type)) source]
                ++ [GLOp.glCompileShader (d.handle w.calls (GLOp.glCreateShader type))]
                ++ [GLOp.glGetShaderiv (d.handle w.calls (GLOp.glCreateShader type))
                      GL_COMPILE_STATUS]
                ++ [GLOp.glGetShaderiv (d.handle w.calls (GLOp.glCreateShader type))
                      GL_INFO_LOG_LENGTH]
                ++ [GLOp.glGetShaderInfoLog (d.handle w.calls (GLOp.glCreateShader type))
                      (d.shaderiv
                        (w.calls ++ [GLOp.glCreateShader type]
                          ++ [GLOp.glShaderSource (d.handle w.calls (GLOp.glCreateShader type))
                                source]
                          ++ [GLOp.glCompileShader (d.handle w.calls (GLOp.glCreateShader type))]
                          ++ [GLOp.glGetShaderiv (d.handle w.calls (GLOp.glCreateShader type))
                                GL_COMPILE_STATUS])
                        (d.handle w.calls (GLOp.glCreateShader type)) GL_INFO_LOG_LENGTH)]
                ++ [GLOp.glDeleteShader (d.handle w.calls (GLOp.glCreateShader type))],
              out := w.out ++ "Failed to compile "
                ++ (if type = GL_VERTEX_SHADER then "vertex" else "fragment") ++ "shader." ++ "\n"
                ++ d.infoLog
                    (w.calls ++ [GLOp.glCreateShader type]
                      ++ [GLOp.glShaderSource (d.handle w.calls (GLOp.glCreateShader type)) source]
                      ++ [GLOp.glCompileShader (d.handle w.calls (GLOp.glCreateShader type))]
                      ++ [GLOp.glGetShaderiv (d.handle w.calls (GLOp.glCreateShader type))
                            GL_COMPILE_STATUS]
                      ++ [GLOp.glGetShaderiv (d.handle w.calls (GLOp.glCreateShader type))
                            GL_INFO_LOG_LENGTH])
                    (d.handle w.calls (GLOp.glCreateShader type))
                ++ "\n" })
        else
          .ok (d.handle w.calls (GLOp.glCreateShader type),
            { errors := [],
              calls := w.calls ++ [GLOp.glCreateShader type]
                ++ [GLOp.glShaderSource (d.handle w.calls (GLOp.glCreateShader type)) source]
                ++ [GLOp.glCompileShader (d.handle w.calls (GLOp.glCreateShader type))]
                ++ [GLOp.glGetShaderiv (d.handle w.calls (GLOp.glCreateShader type))
                      GL_COMPILE_STATUS],
              out := w.out }) := by
  simp only [CompileShader, GLCall_ok d hquiet, bind, Except.bind, pure, Except.pure]

theorem CompileShader_quiet (d : Driver) (hquiet : ∀ calls x, d.raises calls x = [])
    (file : String) (type : Nat) (source : String) (w : GLWorld) :
    ∃ (length : Int) (message : String),
      CompileShader d file type source w
        = if compileStatus d type source w = GL_FALSE then
            .ok (0,
              { errors := [],
                calls := w.calls ++
                  [GLOp.glCreateShader type,
                   GLOp.glShaderSource (createdShader d type w) source,
                   GLOp.glCompileShader (createdShader d type w),
                   GLOp.glGetShaderiv (createdShader d type w) GL_COMPILE_STATUS,
                   GLOp.glGetShaderiv (createdShader d type w) GL_INFO_LOG_LENGTH,
                   GLOp.glGetShaderInfoLog (createdShader d type w) length,
                   GLOp.glDeleteShader (createdShader d type w)],
                out := w.out ++ "Failed to compile "
                  ++ (if type = GL_VERTEX_SHADER then "vertex" else "fragment") ++ "shader."
                  ++ "\n" ++ message ++ "\n" })
          else
            .ok (createdShader d type w,
              { errors := [],
                calls := w.calls ++
                  [GLOp.glCreateShader type,
                   GLOp.glShaderSource (createdShader d type w) source,
                   GLOp.glCompileShader (createdShader d type w),
                   GLOp.glGetShaderiv (createdShader d type w) GL_COMPILE_STATUS],
                out := w.out }) := by
  rw [CompileShader_quiet_unfolded d hquiet]
  simp only [compileStatus, createdShader, List.append_assoc, List.cons_append,
    List.nil_append]
  exact ⟨_, _, rfl⟩

theorem CompileShader_calls (d : Driver) (hquiet : ∀ calls x, d.raises calls x = [])
    (file : String) (type : Nat) (source : String) (w : GLWorld) :
    ∃ r w1 issued,
      CompileShader d file type source w = .ok (r, w1) ∧ w1.calls = w.calls ++ issued ∧
      ∀ program pname, GLOp.glGetProgramiv program pname ∉ issued := by
  obtain ⟨length, message, h⟩ := CompileShader_quiet d hquiet file type source w
  rw [h]
  split
  · exact ⟨_, _, _, rfl, rfl, by simp⟩
  · exact ⟨_, _, _, rfl, rfl, by simp⟩

/-! ### Theorems on the error poller -/

/-- C4: the check of `GLCall(x)` is true exactly when `x` itself raised no error code; the
codes pending before the call are dropped, leave no text in the output and do not change
the outcome, which is the one obtained from an empty queue. -/
theorem GLCall_check_iff (d : Driver) (function file : String) (line : Int) (x : GLOp)
    (stale : List ErrorCode) (calls : List GLOp) (out : String) :
    ((GLCall.check d function file line x { errors := stale, calls := calls, out := out }).1
        = true ↔ d.raises calls x = []) ∧
    GLCall.check d function file line x { errors := stale, calls := calls, out := out }
      = GLCall.check d function file line x { errors := [], calls := calls, out := out } ∧
    GLCall.check d function file line x { errors := stale, calls := calls, out := out }
      = match d.raises calls x with
        | [] => (true, { errors := [], calls := calls ++ [x], out := out })
        | e :: rest =>
          (false, { errors := rest, calls := calls ++ [x],
                    out := out ++ "[OpenGL Error] " ++ GLLogCall.switch e.val ++ "\n" }) := by
  refine ⟨?_, ?_, ?_⟩
  · rw [GLCall_check_eq]
    cases d.raises calls x <;> simp
  · rw [GLCall_check_eq, GLCall_check_eq]
  · rw [GLCall_check_eq]

/-- C5, at the queue `[GL_INVALID_ENUM, GL_INVALID_VALUE]`: `GLLogCall` returns after the
first code; one message is written and `GL_INVALID_VALUE` is still pending. -/
theorem GLLogCall_leaves_second_error :
    GLLogCall "glClear(GL_COLOR_BUFFER_BIT)" "Application.cpp" 195
        { errors := [⟨GL_INVALID_ENUM, by decide⟩, ⟨GL_INVALID_VALUE, by decide⟩],
          calls := [], out := "" }
      = (false,
          { errors := [⟨GL_INVALID_VALUE, by decide⟩], calls := [],
            out := "[OpenGL Error] GL_INVALID_ENUM : An unacceptable value is specified for an enumerated argument.\n" }) := by
  rw [GLLogCall_cons]
  rfl

/-- C6, at the code `GL_INVALID_VALUE`: the text written names `GL_INVALID_OPERATION`, the
label of another code, and does not name `GL_INVALID_VALUE`; the other six known codes are
written under their own names and any other code as unrecognized, with its number. -/
theorem GLLogCall_switch_invalid_value :
    GLLogCall.switch GL_INVALID_VALUE
        = "GL_INVALID_OPERATION : A numeric argument is out of range." ∧
    find (GLLogCall.switch GL_INVALID_VALUE) "GL_INVALID_VALUE" = none ∧
    find (GLLogCall.switch GL_INVALID_VALUE) "GL_INVALID_OPERATION :" = some 0 ∧
    find (GLLogCall.switch GL_INVALID_OPERATION) "GL_INVALID_OPERATION :" = some 0 ∧
    find (GLLogCall.switch GL_INVALID_ENUM) "GL_INVALID_ENUM :" = some 0 ∧
    find (GLLogCall.switch GL_INVALID_FRAMEBUFFER_OPERATION)
        "GL_INVALID_FRAMEBUFFER_OPERATION :" = some 0 ∧
    find (GLLogCall.switch GL_OUT_OF_MEMORY) "GL_OUT_OF_MEMORY :" = some 0 ∧
    find (GLLogCall.switch GL_STACK_UNDERFLOW) "GL_STACK_UNDERFLOW :" = some 0 ∧
    find (GLLogCall.switch GL_STACK_OVERFLOW) "GL_STACK_OVERFLOW :" = some 0 ∧
    (∀ error : Nat, error ∉ [GL_INVALID_ENUM, GL_INVALID_VALUE, GL_INVALID_OPERATION,
        GL_INVALID_FRAMEBUFFER_OPERATION, GL_OUT_OF_MEMORY, GL_STACK_UNDERFLOW,
        GL_STACK_OVERFLOW] →
      GLLogCall.switch error = "Unrecognized error" ++ toString error) := by
  refine ⟨by decide, by decide, by decide, by decide, by decide, by decide, by decide,
    by decide, by decide, ?_⟩
  intro error herr
  simp only [List.mem_cons, List.mem_singleton, List.not_mem_nil, or_false, not_or] at herr
  obtain ⟨h1, h2, h3, h4, h5, h6, h7⟩ := herr
  simp [GLLogCall.switch, h1, h2, h3, h4, h5, h6, h7]

/-- C7, at two failing calls of lines 195 and 197: `GLLogCall` writes the same text for
both, and that text holds neither the file name nor the call text; in general its result
does not depend on `function`, `file` and `line`. -/
theorem GLLogCall_ignores_location :
    (∀ (function1 file1 function2 file2 : String) (line1 line2 : Int) (w : GLWorld),
      GLLogCall function1 file1 line1 w = GLLogCall function2 file2 line2 w) ∧
    (GLLogCall "glClear(GL_COLOR_BUFFER_BIT)" "Application.cpp" 195
        { errors := [⟨GL_INVALID_ENUM, by decide⟩], calls := [], out := "" }).2.out
      = (GLLogCall "glDrawElements(GL_TRIANGLES, 6, GL_UNSIGNED_INT, nullptr)"
          "Application.cpp" 197
          { errors := [⟨GL_INVALID_ENUM, by decide⟩], calls := [], out := "" }).2.out ∧
    find (GLLogCall "glClear(GL_COLOR_BUFFER_BIT)" "Application.cpp" 195
        { errors := [⟨GL_INVALID_ENUM, by decide⟩], calls := [], out := "" }).2.out
      "Application.cpp" = none ∧
    find (GLLogCall "glClear(GL_COLOR_BUFFER_BIT)" "Application.cpp" 195
        { errors := [⟨GL_INVALID_ENUM, by decide⟩], calls := [], out := "" }).2.out
      "glClear" = none ∧
    find (GLLogCall "glClear(GL_COLOR_BUFFER_BIT)" "Application.cpp" 195
        { errors := [⟨GL_INVALID_ENUM, by decide⟩], calls := [], out := "" }).2.out
      "195" = none := by
  refine ⟨fun _ _ _ _ _ _ _ => rfl, rfl, ?_, ?_, ?_⟩ <;>
    · rw [GLLogCall_cons]
      decide

/-! ### Theorems on the shader builder -/

/-- C8: over a driver that raises no error and whose `glCreateShader` returns a non-zero
id, `CompileShader` returns 0 exactly when the compile-status flag is false; then the
stage object has been deleted and the text logged names the stage ("vertex" for
`GL_VERTEX_SHADER`, "fragment" otherwise) followed by the info log; when the flag is true
it returns the created id, deletes nothing and logs nothing. -/
theorem CompileShader_result (d : Driver) (hquiet : ∀ calls x, d.raises calls x = [])
    (file : String) (type : Nat) (source : String) (w : GLWorld)
    (hid : createdShader d type w ≠ 0) :
    ∃ r w1 issued,
      CompileShader d file type source w = .ok (r, w1) ∧ w1.calls = w.calls ++ issued ∧
      (r = 0 ↔ compileStatus d type source w = GL_FALSE) ∧
      (compileStatus d type source w = GL_FALSE →
        GLOp.glDeleteShader (createdShader d type w) ∈ issued ∧
        ∃ message, w1.out = w.out ++ "Failed to compile "
          ++ (if type = GL_VERTEX_SHADER then "vertex" else "fragment") ++ "shader." ++ "\n"
          ++ message ++ "\n") ∧
      (compileStatus d type source w ≠ GL_FALSE →
        r = createdShader d type w ∧
        GLOp.glDeleteShader (createdShader d type w) ∉ issued ∧ w1.out = w.out) := by
  obtain ⟨length, message, h⟩ := CompileShader_quiet d hquiet file type source w
  rw [h]
  by_cases hs : compileStatus d type source w = GL_FALSE
  · rw [if_pos hs]
    refine ⟨_, _, _, rfl, rfl, ?_, ?_, ?_⟩
    · simp [hs]
    · intro _
      exact ⟨by simp, message, rfl⟩
    · intro hne
      exact absurd hs hne
  · rw [if_neg hs]
    refine ⟨_, _, _, rfl, rfl, ?_, ?_, ?_⟩
    · simp only [hs, iff_false]
      exact hid
    · intro heq
      exact absurd heq hs
    · intro _
      exact ⟨rfl, by simp, rfl⟩

/-- Witness of C8: a vertex stage whose compilation the driver reports as failed. -/
theorem CompileShader_result_witness :
    ∃ r w1 issued,
      CompileShader rejectingDriver "Application.cpp" GL_VERTEX_SHADER "gl_Position = position"
          { errors := [], calls := [], out := "" } = .ok (r, w1) ∧
      w1.calls = ({ errors := [], calls := [], out := "" } : GLWorld).calls ++ issued ∧
      (r = 0 ↔ compileStatus rejectingDriver GL_VERTEX_SHADER "gl_Position = position"
          { errors := [], calls := [], out := "" } = GL_FALSE) ∧
      (compileStatus rejectingDriver GL_VERTEX_SHADER "gl_Position = position"
          { errors := [], calls := [], out := "" } = GL_FALSE →
        GLOp.glDeleteShader (createdShader rejectingDriver GL_VERTEX_SHADER
          { errors := [], calls := [], out := "" }) ∈ issued ∧
        ∃ message, w1.out = ({ errors := [], calls := [], out := "" } : GLWorld).out
          ++ "Failed to compile "
          ++ (if GL_VERTEX_SHADER = GL_VERTEX_SHADER then "vertex" else "fragment")
          ++ "shader." ++ "\n" ++ message ++ "\n") ∧
      (compileStatus rejectingDriver GL_VERTEX_SHADER "gl_Position = position"
          { errors := [], calls := [], out := "" } ≠ GL_FALSE →
        r = createdShader rejectingDriver GL_VERTEX_SHADER
          { errors := [], calls := [], out := "" } ∧
        GLOp.glDeleteShader (createdShader rejectingDriver GL_VERTEX_SHADER
          { errors := [], calls := [], out := "" }) ∉ issued ∧
        w1.out = ({ errors := [], calls := [], out := "" } : GLWorld).out) :=
  CompileShader_result rejectingDriver (fun _ _ => rfl) "Application.cpp" GL_VERTEX_SHADER
    "gl_Position = position" { errors := [], calls := [], out := "" } (by decide)

/-- C9: over a driver that raises no error, whatever the two compilations return,
`CreateShader` returns the handle `glCreateProgram` produced, and the calls it issues are
`glCreateProgram`, those of compiling the vertex stage, those of compiling the fragment
stage, then attach vertex, attach fragment, link, validate, delete vertex stage, delete
fragment stage; `glGetProgramiv` is not among them. -/
theorem CreateShader_result (d : Driver) (hquiet : ∀ calls x, d.raises calls x = [])
    (file vertexShader fragmentShader : String) (w : GLWorld) :
    ∃ vs fs wv wf w1 cv cf,
      CompileShader d file GL_VERTEX_SHADER vertexShader (issue d GLOp.glCreateProgram w)
        = .ok (vs, wv) ∧
      wv.calls = w.calls ++ [GLOp.glCreateProgram] ++ cv ∧
      CompileShader d file GL_FRAGMENT_SHADER fragmentShader wv = .ok (fs, wf) ∧
      wf.calls = wv.calls ++ cf ∧
      CreateShader d file vertexShader fragmentShader w
        = .ok (d.handle w.calls GLOp.glCreateProgram, w1) ∧
      w1.calls = w.calls ++ [GLOp.glCreateProgram] ++ cv ++ cf
        ++ [GLOp.glAttachShader (d.handle w.calls GLOp.glCreateProgram) vs,
            GLOp.glAttachShader (d.handle w.calls GLOp.glCreateProgram) fs,
            GLOp.glLinkProgram (d.handle w.calls GLOp.glCreateProgram),
            GLOp.glValidateProgram (d.handle w.calls GLOp.glCreateProgram),
            GLOp.glDeleteShader vs,
            GLOp.glDeleteShader fs] ∧
      ∀ program pname, GLOp.glGetProgramiv program pname ∉
        [GLOp.glCreateProgram] ++ cv ++ cf
        ++ [GLOp.glAttachShader (d.handle w.calls GLOp.glCreateProgram) vs,
            GLOp.glAttachShader (d.handle w.calls GLOp.glCreateProgram) fs,
            GLOp.glLinkProgram (d.handle w.calls GLOp.glCreateProgram),
            GLOp.glValidateProgram (d.handle w.calls GLOp.glCreateProgram),
            GLOp.glDeleteShader vs,
            GLOp.glDeleteShader fs] := by
  obtain ⟨vs, wv, cv, hcv, hwv, hnv⟩ :=
    CompileShader_calls d hquiet file GL_VERTEX_SHADER vertexShader
      (issue d GLOp.glCreateProgram w)
  obtain ⟨fs, wf, cf, hcf, hwf, hnf⟩ :=
    CompileShader_calls d hquiet file GL_FRAGMENT_SHADER fragmentShader wv
  have hwv2 : wv.calls = w.calls ++ [GLOp.glCreateProgram] ++ cv := by
    rw [hwv]
    rfl
  refine ⟨vs, fs, wv, wf,
    { errors := [], out := wf.out,
      calls := wf.calls
        ++ [GLOp.glAttachShader (d.handle w.calls GLOp.glCreateProgram) vs]
        ++ [GLOp.glAttachShader (d.handle w.calls GLOp.glCreateProgram) fs]
        ++ [GLOp.glLinkProgram (d.handle w.calls GLOp.glCreateProgram)]
        ++ [GLOp.glValidateProgram (d.handle w.calls GLOp.glCreateProgram)]
        ++ [GLOp.glDeleteShader vs] ++ [GLOp.glDeleteShader fs] },
    cv, cf, hcv, hwv2, hcf, hwf, ?_, ?_, ?_⟩
  · simp only [CreateShader, hcv, hcf, GLCall_ok d hquiet, bind, Except.bind, pure,
      Except.pure]
  · simp only [hwf, hwv2, List.append_assoc, List.cons_append, List.nil_append]
  · intro program pname hmem
    simp only [List.mem_append, List.mem_cons, List.mem_singleton, List.not_mem_nil,
      reduceCtorEq, or_false, false_or] at hmem
    rcases hmem with h | h
    · exact hnv program pname h
    · exact hnf program pname h

/-- Witness of C9: both stages fail to compile and come back as handle 0. -/
theorem CreateShader_result_witness :
    (CreateShader rejectingDriver "Application.cpp" "gl_Position = position" "gl_Position = position"
        { errors := [], calls := [], out := "" }).map Prod.fst = .ok 1 := by
  obtain ⟨vs, fs, wv, wf, w1, cv, cf, _, _, _, _, h, _⟩ :=
    CreateShader_result rejectingDriver (fun _ _ => rfl) "Application.cpp" "gl_Position = position"
      "gl_Position = position" { errors := [], calls := [], out := "" }
  rw [h]
  rfl

/-! ### Theorems on the geometry upload -/

/-- C10, at the vertex upload of `main`: the byte count passed, `6 * 2 * sizeof(float)` = 48,
exceeds the 32 bytes of `positions` (4 vertices of 2 floats), so the upload reads 16 bytes
past the end of the array; the index upload passes exactly the size of `indices`, every
index is below the vertex count 4 and the draw count equals the number of indices. -/
theorem vertex_upload_exceeds_positions :
    vertexUploadSize = 48 ∧ sizeof_positions = 32 ∧
    sizeof_positions = 4 * floatsPerVertex * sizeof_float ∧
    sizeof_positions + 16 = vertexUploadSize ∧
    indexUploadSize = sizeof_indices ∧
    (∀ i ∈ indices, i < positions.length / floatsPerVertex) ∧
    positions.length / floatsPerVertex = 4 ∧
    drawCount = indices.length := by
  refine ⟨rfl, rfl, rfl, rfl, rfl, ?_, rfl, rfl⟩
  decide

end OpenGL
